import Mathlib

/-!
Shallow embedding of the sharaq image-derivative proxy core
(repository lestrrat/sharaq): the dispatcher's whitelist check, the
Guardian's dedup guard and PUT/DELETE handlers, and the two physical
backends (S3-backed in package aws, filesystem-backed in package fs)
with their serve / store-transformed-content / delete operations.

Go goroutine fan-outs are embedded by passing the per-branch outcomes
(transform or store success/failure) as explicit lists; `errgroup`
joins are modelled as "first error in completion order", where the
input list order is the completion order (Go map iteration order is
itself randomized, so every order is reachable).  HTTP handlers become
pure functions from their inputs (parsed URL, cache lookup result,
probe result) to a record of the writes and side effects they perform.
-/

namespace Sharaq

/-- A parsed `net/url.URL`: we keep the two projections the code uses,
`u.String()` (the full URL) and `u.Path`. -/
structure GoURL where
  full : String
  path : String
deriving DecidableEq, Repr

/-- Modelled from the spec: `MakeCacheKey` lives in `internal/urlcache`,
which is not under src/ (src only shows its call sites, which pass it a
variadic list of strings).  The spec requires a deterministic,
collision-resistant derivation from the argument strings; we model it
as a separator join. -/
def MakeCacheKey (parts : List String) : String :=
  String.intercalate (":") parts

/-- Modelled from the spec: `util.HashedPath` lives in `internal/util`,
not under src/.  The spec requires `locate` to be a deterministic
mapping from (preset, source URL) to a path; any injective encoding
works for the claims, we keep the pair visible. -/
def HashedPath (preset urlstr : String) : String :=
  preset ++ "/" ++ urlstr

/-- Go method `fs.Backend.EncodeFilename`: `filepath.Join(f.root, util.HashedPath(preset, urlstr))`. -/
def EncodeFilename (root preset urlstr : String) : String :=
  root ++ "/" ++ HashedPath preset urlstr

/-! ## Dedup guard (Guardian, src/unnamed/part_002) -/

/-- The guard state: `processing map[uint64]bool` keyed by the crc64 of
the URL string.  We record the set of keys currently mapped to `true`
as a list of naturals.  The crc64 hash itself is Go stdlib, so the
definitions are parametrized by an arbitrary `hash : String → Nat`. -/
structure Guardian where
  processing : List Nat
deriving DecidableEq, Repr

/-- Go method `Guardian.MarkProcessing`: hashes `u.String()`, sets
`processing[k] = true` under the mutex, and returns `true`
unconditionally — the source never consults the current map entry. -/
def MarkProcessing (hash : String → Nat) (g : Guardian) (u : GoURL) :
    Bool × Guardian :=
  let k := hash u.full
  (true, ⟨k :: g.processing.filter (fun x => x ≠ k)⟩)

/-- Go method `Guardian.UnmarkProcessing`: hashes `u.String()` and deletes the map
entry under the mutex. -/
def UnmarkProcessing (hash : String → Nat) (g : Guardian) (u : GoURL) :
    Guardian :=
  let k := hash u.full
  ⟨g.processing.filter (fun x => x ≠ k)⟩

/-- Whether a URL is currently marked in-flight. -/
def Guardian.inFlight (hash : String → Nat) (g : Guardian) (u : GoURL) : Bool :=
  g.processing.contains (hash u.full)

/-! ## Fan-out branch outcomes -/

/-- Outcome of one preset's branch in `transformAllAndStore` /
`S3Backend.StoreTransformedContent`: the transformer call may fail, else
the S3 `PutReader` may fail, else the branch succeeds silently. -/
inductive BranchOutcome where
  | transformFail (e : String)
  | storeFail (e : String)
  | ok
deriving DecidableEq, Repr

/-- The error a branch sends on `errCh` (if any). -/
def branchError : BranchOutcome → Option String
  | .transformFail e => some e
  | .storeFail e => some e
  | .ok => none

/-- Go method `Guardian.transformAllAndStore`: every branch runs to completion
(plain WaitGroup, no cancellation); the drained channel holds exactly
the branch errors in completion order. -/
def transformAllAndStore (outcomes : List BranchOutcome) : List String :=
  outcomes.filterMap branchError

/-- The Guardian handlers' error aggregation: `fmt.Fprintf(buf, "Err: %s\n", err)`
for every drained error. -/
def joinErrLines (errs : List String) : String :=
  String.join (errs.map (fun e => "Err: " ++ e ++ "\n"))

/-! ## Guardian HTTP handlers (PUT / DELETE) -/

/-- Observable response of a Guardian handler. -/
inductive GuardResponse where
  | httpError (msg : String) (code : Nat)
  | okWithElapsedHeader
deriving DecidableEq, Repr

/-- Go method `Guardian.HandleStore` after URL parsing succeeded: mark the URL
in-flight (`MarkProcessing` — its `false` branch is dead since it always
returns `true`), run `transformAllAndStore`, respond 500 with the joined
error lines if any error was collected and 200 otherwise, and
unconditionally unmark on the way out (`defer g.UnmarkProcessing(u)`). -/
def HandleStore (hash : String → Nat) (g : Guardian) (u : GoURL)
    (outcomes : List BranchOutcome) : GuardResponse × Guardian :=
  let (admitted, g₁) := MarkProcessing hash g u
  if admitted then
    let buf := joinErrLines (transformAllAndStore outcomes)
    let resp := if buf.length > 0 then GuardResponse.httpError buf 500
                else GuardResponse.okWithElapsedHeader
    (resp, UnmarkProcessing hash g₁ u)
  else
    (GuardResponse.httpError ("url is being processed") 500, g₁)

/-- One preset's branch of `Guardian.HandleDelete`: `Bucket.Del`
may fail (error collected), and the cache delete
`g.Cache.Delete(MakeCacheKey(preset, u.String()))` runs regardless. -/
def guardianDeleteBranch (u : GoURL) (preset : String)
    (delErr : Option String) : Option String × String :=
  (delErr, MakeCacheKey [preset, u.full])

/-- Go method `Guardian.HandleDelete` after URL parsing succeeded: mark in-flight
(always admitted), fan out one delete branch per preset (each given by
its name and its `Bucket.Del` outcome), aggregate errors like
`HandleStore`, and unconditionally unmark on the way out.  Also returns
the list of cache keys deleted. -/
def HandleDelete (hash : String → Nat) (g : Guardian) (u : GoURL)
    (branches : List (String × Option String)) :
    GuardResponse × Guardian × List String :=
  let (admitted, g₁) := MarkProcessing hash g u
  if admitted then
    let results := branches.map (fun b => guardianDeleteBranch u b.1 b.2)
    let buf := joinErrLines (results.filterMap Prod.fst)
    let resp := if buf.length > 0 then GuardResponse.httpError buf 500
                else GuardResponse.okWithElapsedHeader
    (resp, UnmarkProcessing hash g₁ u, results.map Prod.snd)
  else
    (GuardResponse.httpError ("url is being processed") 500, g₁, [])

/-! ## S3 backend (src/aws/backend.go) -/

/-- Result of the `http.Head(specificURL)` probe: the request can fail
at the transport level (`err != nil`), or return a status code. -/
inductive HeadResult where
  | transportError
  | status (code : Nat)
deriving DecidableEq, Repr

/-- One write the serve handlers perform on the `http.ResponseWriter`. -/
inductive ServeWrite where
  | redirect (loc : String) (code : Nat)
  | serveFile (path : String)
deriving DecidableEq, Repr

/-- What a serve handler did: the response writes in program order, the
cache `Set` calls it issued, and whether it spawned the background
`StoreTransformedContent` goroutine. -/
structure ServeResult where
  writes : List ServeWrite
  cacheSets : List (String × String)
  materializeTriggered : Bool
deriving DecidableEq, Repr

/-- Go method `S3Backend.Serve` after URL and preset parsing succeeded.
Cache hit → 301 to the cached URL.  Miss → `http.Head` on
`specificURL`; a transport error jumps (`goto FALLBACK`) straight to
the 302, skipping the materialize trigger; status 200 → async cache set
and 301; any other status → spawn `StoreTransformedContent` and fall
through to the 302 to the original URL. -/
def awsServe (bucketName : String) (u : GoURL) (preset : String)
    (lookup : String → Option String) (head : HeadResult) : ServeResult :=
  let cacheKey := MakeCacheKey ["s3", preset, u.full]
  match lookup cacheKey with
  | some cachedURL =>
    { writes := [.redirect cachedURL 301], cacheSets := [], materializeTriggered := false }
  | none =>
    let specificURL := "http://" ++ bucketName ++ ".s3.amazonaws.com/" ++ preset ++ u.path
    match head with
    | .transportError =>
      { writes := [.redirect u.full 302], cacheSets := [], materializeTriggered := false }
    | .status code =>
      if code = 200 then
        { writes := [.redirect specificURL 301]
          cacheSets := [(cacheKey, specificURL)]
          materializeTriggered := false }
      else
        { writes := [.redirect u.full 302], cacheSets := [], materializeTriggered := true }

/-- Result of `StoreTransformedContent`: the returned error and the
cache `Set` calls performed during the run. -/
structure StoreResult where
  err : Option String
  cacheUpserts : List (String × String)
deriving DecidableEq, Repr

/-- Go method `S3Backend.StoreTransformedContent`: every preset branch runs to
completion (plain WaitGroup); the drained errors are joined one
`"Err: %s\n"` line each, and a non-empty buffer becomes the single
returned error.  No branch touches the URL cache. -/
def awsStoreTransformedContent (outcomes : List BranchOutcome) : StoreResult :=
  let buf := joinErrLines (outcomes.filterMap branchError)
  { err := if buf.length > 0 then some ("error while transforming: " ++ buf) else none
    cacheUpserts := [] }

/-- Result of a backend `Delete`: the returned error and the cache keys
passed to `cache.Delete`. -/
structure DeleteResult where
  err : Option String
  cacheDeletes : List String
deriving DecidableEq, Repr

/-- Go method `S3Backend.Delete`: one branch per preset; `bucket.Del` may fail
(error collected on the channel) and the cache delete runs regardless —
but keyed by `MakeCacheKey(preset, u.String())`, without the `"s3"`
scheme component the serve path uses.  Errors are joined like the store
path. -/
def awsDelete (u : GoURL) (branches : List (String × Option String)) :
    DeleteResult :=
  let buf := joinErrLines (branches.filterMap Prod.snd)
  { err := if buf.length > 0 then some ("error while deleting: " ++ buf) else none
    cacheDeletes := branches.map (fun b => MakeCacheKey [b.1, u.full]) }

/-! ## Filesystem backend (src/fs/backend.go) -/

/-- Go method `fs.Backend.Serve` after URL and preset parsing succeeded.
Cache hit → `http.ServeFile` on the cached path and return.  Miss →
`os.Stat` on the encoded filename; on success the handler sets the
cache and serves the file but has no `return`, so it falls through to
spawning the background materialization and writing the 302 header; on
stat failure it spawns the materialization and responds 302 to the
original URL. -/
def fsServe (root : String) (u : GoURL) (preset : String)
    (lookup : String → Option String) (statOk : Bool) : ServeResult :=
  let cacheKey := MakeCacheKey ["fs", preset, u.full]
  match lookup cacheKey with
  | some cachedFile =>
    { writes := [.serveFile cachedFile], cacheSets := [], materializeTriggered := false }
  | none =>
    let path := EncodeFilename root preset u.full
    if statOk then
      { writes := [.serveFile path, .redirect u.full 302]
        cacheSets := [(cacheKey, path)]
        materializeTriggered := true }
    else
      { writes := [.redirect u.full 302], cacheSets := [], materializeTriggered := true }

/-- Outcome of one preset's branch in `fs.Backend.StoreTransformedContent`:
transform, mkdir, open or copy may fail; each failure is wrapped with
`errors.Wrap` before being returned to the errgroup. -/
inductive FsBranchOutcome where
  | transformFail (e : String)
  | mkdirFail (e : String)
  | openFail (e : String)
  | copyFail (e : String)
  | ok
deriving DecidableEq, Repr

/-- The wrapped error an fs store branch returns (if any). -/
def fsBranchError : FsBranchOutcome → Option String
  | .transformFail e => some ("failed to transform: " ++ e)
  | .mkdirFail e => some ("failed to create directory: " ++ e)
  | .openFail e => some ("failed to open file: " ++ e)
  | .copyFail e => some ("failed to write content: " ++ e)
  | .ok => none

/-- Result of `fs.Backend.StoreTransformedContent`, which also spawns
`go f.CleanStorageRoot()` before joining. -/
structure FsStoreResult where
  err : Option String
  cacheUpserts : List (String × String)
  cleanTriggered : Bool
deriving DecidableEq, Repr

/-- Go method `fs.Backend.StoreTransformedContent`: the branches run through an
`errgroup`, whose `Wait` returns only the first error in completion
order (the input list order; the branch bodies never read the group's
context, so siblings keep running).  `go f.CleanStorageRoot()` is
spawned on every call.  No branch touches the URL cache. -/
def fsStoreTransformedContent (outcomes : List FsBranchOutcome) : FsStoreResult :=
  { err := (outcomes.filterMap fsBranchError).head?
    cacheUpserts := []
    cleanTriggered := true }

/-- One preset's branch of `fs.Backend.Delete`: on `os.Remove` failure
the branch returns the wrapped error immediately, skipping the cache
delete; on success it deletes `MakeCacheKey("fs", preset, u.String())`.
Returns (branch error, cache key deleted if any). -/
def fsDeleteBranch (root : String) (u : GoURL) (preset : String)
    (removeOk : Bool) : Option String × Option String :=
  if removeOk then
    (none, some (MakeCacheKey ["fs", preset, u.full]))
  else
    (some ("failed to remove path " ++ EncodeFilename root preset u.full), none)

/-- Go method `fs.Backend.Delete`: errgroup join (first branch error in completion
order), wrapped once more by `errors.Wrap(grp.Wait(), "deleting from
file system")` — which is nil when `Wait` is nil. -/
def fsDelete (root : String) (u : GoURL) (branches : List (String × Bool)) :
    DeleteResult :=
  let results := branches.map (fun b => fsDeleteBranch root u b.1 b.2)
  { err := (results.filterMap Prod.fst).head?.map
      (fun e => "deleting from file system: " ++ e)
    cacheDeletes := results.filterMap Prod.snd }

/-! ## Storage reaper (fs.Backend.CleanStorageRoot) -/

/-- One entry the `filepath.Walk` callback sees: its path, the age of
its last modification (`time.Since(info.ModTime())`, in the same units
as the TTL), whether the walk reports an error for it, and whether the
`os.Remove` attempt on it would fail. -/
structure FileEntry where
  path : String
  age : Int
  walkErr : Bool
  removeFails : Bool
deriving DecidableEq, Repr

/-- The walk callback of `CleanStorageRoot` on one entry: returns the
removal attempt (if any) and the error it hands back to `filepath.Walk`
— always `nil`: a walk error skips the entry, an over-TTL entry is
removed with the `os.Remove` error discarded. -/
def cleanStep (ttl : Int) (e : FileEntry) : Option String × Option String :=
  if e.walkErr then (none, none)
  else if e.age > ttl then (some e.path, none)
  else (none, none)

/-- Embedding of `filepath.Walk` semantics over the entries under the root: a
non-nil callback error aborts the walk; otherwise it continues.
Returns the removal attempts made and whether the walk ran to
completion. -/
def walkClean (ttl : Int) : List FileEntry → List String × Bool
  | [] => ([], true)
  | e :: rest =>
    let (rem, cb) := cleanStep ttl e
    match cb with
    | some _ => (rem.toList, false)
    | none =>
      let (rs, completed) := walkClean ttl rest
      (rem.toList ++ rs, completed)

/-- Go method `fs.Backend.CleanStorageRoot`: a non-positive `imageTTL` returns
immediately without walking; otherwise the storage root is walked and
over-TTL entries removed.  Returns the paths whose removal was
attempted and whether the walk completed. -/
def CleanStorageRoot (ttl : Int) (entries : List FileEntry) :
    List String × Bool :=
  if ttl ≤ 0 then ([], true)
  else walkClean ttl entries

/-! ## Dispatcher (src/unnamed/part_000) -/

/-- Outcome of `Dispatcher.HandleFetch`. -/
inductive FetchResult where
  | badURL500
  | notAllowed403
  | forwarded
deriving DecidableEq, Repr

/-- Go method `Dispatcher.HandleFetch`: an empty `url` form value is a 500; with
an empty whitelist every URL is allowed, otherwise the URL must match
at least one whitelist pattern (patterns embedded as predicates, regexp
matching being external) or a 403 is returned; allowed requests are
handed to `d.backend.Serve`. -/
def HandleFetch (whitelist : List (String → Bool)) (rawValue : String) :
    FetchResult :=
  if rawValue = "" then .badURL500
  else
    let allowed :=
      if whitelist.isEmpty then true
      else whitelist.any (fun pat => pat rawValue)
    if !allowed then .notAllowed403
    else .forwarded

/-! ## Test fixtures and helper lemmas -/

/-- A concrete source URL used by the closed theorems. -/
def testURL : GoURL := ⟨"http://example.com/a.jpg", "/a.jpg"⟩

/-- A concrete stand-in for the crc64 URL hash (the guard definitions
are parametrized over the hash). -/
def testHash : String → Nat := String.length

/-- A concrete bucket name. -/
def testBucket : String := "bkt"

/-- A concrete fs storage root. -/
def testRoot : String := "/data"

/-- A concrete preset name (from the Guardian's preset table). -/
def testPreset : String := "pc-thumb"

/-- An always-missing URL cache. -/
def noCache : String → Option String := fun _ => none

/-- Whether the first character list is a prefix of the second. -/
def leadsChars : List Char → List Char → Bool
  | [], _ => true
  | _ :: _, [] => false
  | a :: as, b :: bs => a == b && leadsChars as bs

/-- Whether the first character list occurs inside the second. -/
def occursInChars (sub : List Char) : List Char → Bool
  | [] => leadsChars sub []
  | c :: rest => leadsChars sub (c :: rest) || occursInChars sub rest

/-- Whether `sub` occurs as a substring of `s`. -/
def occursIn (sub s : String) : Bool := occursInChars sub.data s.data

theorem join_cons (s : String) (l : List String) :
    String.join (s :: l) = s ++ String.join l := by
  simp [String.join_eq, String.ext_iff]

theorem joinErrLines_cons (e : String) (rest : List String) :
    joinErrLines (e :: rest) = ("Err: " ++ e ++ "\n") ++ joinErrLines rest := by
  simp [joinErrLines, join_cons]

theorem joinErrLines_pos (e : String) (rest : List String) :
    0 < (joinErrLines (e :: rest)).length := by
  rw [joinErrLines_cons, String.length_append, String.length_append,
    String.length_append]
  have h1 : ("\n").length = 1 := rfl
  omega

theorem inFlight_unmark (hash : String → Nat) (g : Guardian) (u : GoURL) :
    Guardian.inFlight hash (UnmarkProcessing hash g u) u = false := by
  simp [Guardian.inFlight, UnmarkProcessing, List.contains_eq_any_beq]

theorem walkClean_eq (ttl : Int) (l : List FileEntry) :
    walkClean ttl l =
      ((l.filter (fun e => !e.walkErr && decide (ttl < e.age))).map
        (fun e => e.path), true) := by
  induction l with
  | nil => rfl
  | cons e rest ih =>
    cases hw : e.walkErr
    · by_cases ha : ttl < e.age
      · simp [walkClean, cleanStep, hw, ha, List.filter_cons, ih]
      · simp [walkClean, cleanStep, hw, ha, List.filter_cons, ih]
    · simp [walkClean, cleanStep, hw, List.filter_cons, ih]

/-! ## Claim theorems -/

/-- C1: the claim says `MarkProcessing` returns `true` iff the URL is
not already in flight, so that of two concurrent runs for the same URL
exactly one is admitted.  Evaluating the code: with `testURL` already
marked in flight, `MarkProcessing` still returns `true`, and a second
`HandleStore` for the same URL is processed to completion (200
response) instead of receiving the 500 rejection — the rejection
branch is dead code. -/
theorem C1_second_acquire_still_admitted :
    Guardian.inFlight testHash (MarkProcessing testHash ⟨[]⟩ testURL).2 testURL = true ∧
    (MarkProcessing testHash (MarkProcessing testHash ⟨[]⟩ testURL).2 testURL).1 = true ∧
    (HandleStore testHash (MarkProcessing testHash ⟨[]⟩ testURL).2 testURL []).1 =
      GuardResponse.okWithElapsedHeader := by
  refine ⟨by decide, rfl, rfl⟩

/-- C2 counterexample: on the S3 read path with a cache miss, when the
HEAD existence probe errors at the transport level the handler responds
302 to the original source URL but does NOT trigger the background
materialization (the `goto FALLBACK` jumps over the trigger), refuting
the claim that every failed/errored probe also triggers
materialization. -/
theorem C2_head_error_skips_trigger :
    (awsServe testBucket testURL testPreset noCache HeadResult.transportError).writes =
      [ServeWrite.redirect testURL.full 302] ∧
    (awsServe testBucket testURL testPreset noCache HeadResult.transportError).materializeTriggered
      = false := by
  exact ⟨rfl, rfl⟩

/-- C2 amended: on a cache miss, a non-200 HEAD status (S3) or a failed
stat (fs) yields a 302 to the source URL and spawns the background
materialization unconditionally — no dedup guard is consulted on this
path — while an S3 HEAD transport error yields the 302 without
triggering materialization at all. -/
theorem C2_probe_fail_paths (bucket root : String) (u : GoURL) (preset : String)
    (lookup : String → Option String) (code : Nat)
    (hs3 : lookup (MakeCacheKey ["s3", preset, u.full]) = none)
    (hfs : lookup (MakeCacheKey ["fs", preset, u.full]) = none)
    (hcode : code ≠ 200) :
    awsServe bucket u preset lookup (HeadResult.status code) =
      { writes := [ServeWrite.redirect u.full 302], cacheSets := [],
        materializeTriggered := true } ∧
    awsServe bucket u preset lookup HeadResult.transportError =
      { writes := [ServeWrite.redirect u.full 302], cacheSets := [],
        materializeTriggered := false } ∧
    fsServe root u preset lookup false =
      { writes := [ServeWrite.redirect u.full 302], cacheSets := [],
        materializeTriggered := true } := by
  refine ⟨?_, ?_, ?_⟩ <;> simp [awsServe, fsServe, hs3, hfs, hcode]

/-- C2 witness: the amended read-path behavior at a concrete miss with
HEAD status 404. -/
theorem C2_probe_fail_paths_witness :
    noCache (MakeCacheKey ["s3", testPreset, testURL.full]) = none ∧
    noCache (MakeCacheKey ["fs", testPreset, testURL.full]) = none ∧
    (404 : Nat) ≠ 200 ∧
    (awsServe testBucket testURL testPreset noCache (HeadResult.status 404) =
      { writes := [ServeWrite.redirect testURL.full 302], cacheSets := [],
        materializeTriggered := true } ∧
     awsServe testBucket testURL testPreset noCache HeadResult.transportError =
      { writes := [ServeWrite.redirect testURL.full 302], cacheSets := [],
        materializeTriggered := false } ∧
     fsServe testRoot testURL testPreset noCache false =
      { writes := [ServeWrite.redirect testURL.full 302], cacheSets := [],
        materializeTriggered := true }) :=
  ⟨rfl, rfl, by decide,
    C2_probe_fail_paths testBucket testRoot testURL testPreset noCache 404 rfl rfl
      (by decide)⟩

/-- C3 counterexample: in the fs backend's `StoreTransformedContent`,
with two failing preset branches the errgroup join surfaces only the
first branch's wrapped error; the second branch's message does not
occur anywhere in the returned error, refuting "one line for every
failed branch (the union of all branch failures)". -/
theorem C3_fs_store_drops_sibling_failure :
    (fsStoreTransformedContent
        [FsBranchOutcome.transformFail ("boom1"),
         FsBranchOutcome.transformFail ("boom2")]).err =
      some ("failed to transform: boom1") ∧
    occursIn ("boom2")
      ((fsStoreTransformedContent
          [FsBranchOutcome.transformFail ("boom1"),
           FsBranchOutcome.transformFail ("boom2")]).err.getD ("")) = false := by
  refine ⟨rfl, by decide⟩

/-- C3 amended: the S3 backend's `StoreTransformedContent` runs every
branch to completion and returns no error exactly when every branch
succeeded, otherwise a single aggregate error with one `Err:` line per
failed branch; the fs backend's variant instead returns only the first
failed branch's error in completion order (its errgroup join), not an
aggregate — sibling branches still run (their outcomes are all drained)
but their failures are dropped from the returned error. -/
theorem C3_aggregate_shapes (outcomes : List BranchOutcome)
    (fsOutcomes : List FsBranchOutcome) :
    (awsStoreTransformedContent outcomes).err =
      (if outcomes.filterMap branchError = [] then none
       else some ("error while transforming: " ++
         joinErrLines (outcomes.filterMap branchError))) ∧
    (fsStoreTransformedContent fsOutcomes).err =
      (fsOutcomes.filterMap fsBranchError).head? := by
  refine ⟨?_, rfl⟩
  unfold awsStoreTransformedContent
  cases h : outcomes.filterMap branchError with
  | nil => rfl
  | cons e rest => simp [joinErrLines_pos e rest]

/-- C4: the claim (and the source's own comment, "fallthrough here
regardless") says the cache entry is cleared regardless of the remove
outcome; but in `fs.Backend.Delete` a failed `os.Remove` makes the
branch return early, skipping the cache delete: with one preset whose
remove fails, no cache key is deleted and the error is returned. -/
theorem C4_fs_remove_failure_keeps_cache_entry :
    (fsDelete testRoot testURL [(testPreset, false)]).cacheDeletes = [] ∧
    (fsDelete testRoot testURL [(testPreset, false)]).err.isSome = true ∧
    (fsDelete testRoot testURL [(testPreset, true)]).cacheDeletes =
      [MakeCacheKey ["fs", testPreset, testURL.full]] := by
  exact ⟨rfl, rfl, rfl⟩

/-- C5: the claim says the serve path and the invalidation path compute
the same cache key for a (scheme, preset, url) triple.  In the S3
backend the serve path caches under `MakeCacheKey("s3", preset, url)`
while `Delete` clears `MakeCacheKey(preset, url)` — the scheme
component is omitted — so the key serving created is never among the
keys invalidation deletes. -/
theorem C5_delete_key_misses_serve_key :
    (awsServe testBucket testURL testPreset noCache (HeadResult.status 200)).cacheSets.map
        Prod.fst = [MakeCacheKey ["s3", testPreset, testURL.full]] ∧
    (awsDelete testURL [(testPreset, none)]).cacheDeletes =
      [MakeCacheKey [testPreset, testURL.full]] ∧
    MakeCacheKey ["s3", testPreset, testURL.full] ∉
      (awsDelete testURL [(testPreset, none)]).cacheDeletes := by
  refine ⟨rfl, rfl, by decide⟩

/-- C6 counterexample: a `StoreTransformedContent` run in which a
preset succeeds end-to-end (transform and store both succeed, no error
returned), yet no cache entry is upserted — in both backends the
materializer performs no cache update at all, refuting the claim that
the cache entry is upserted after the store completes. -/
theorem C6_store_success_no_cache_upsert :
    (awsStoreTransformedContent [BranchOutcome.ok]).err = none ∧
    (awsStoreTransformedContent [BranchOutcome.ok]).cacheUpserts = [] ∧
    (fsStoreTransformedContent [FsBranchOutcome.ok]).err = none ∧
    (fsStoreTransformedContent [FsBranchOutcome.ok]).cacheUpserts = [] :=
  ⟨rfl, rfl, rfl, rfl⟩

/-- C6 amended: `StoreTransformedContent` never upserts any cache entry
in either backend, for any branch outcomes; cache entries are created
only on the read path, when the existence probe succeeds (HEAD 200 for
S3, successful stat for fs). -/
theorem C6_materialize_never_upserts_cache (outcomes : List BranchOutcome)
    (fsOutcomes : List FsBranchOutcome) (bucket root : String) (u : GoURL)
    (preset : String) (lookup : String → Option String)
    (hs3 : lookup (MakeCacheKey ["s3", preset, u.full]) = none)
    (hfs : lookup (MakeCacheKey ["fs", preset, u.full]) = none) :
    (awsStoreTransformedContent outcomes).cacheUpserts = [] ∧
    (fsStoreTransformedContent fsOutcomes).cacheUpserts = [] ∧
    (awsServe bucket u preset lookup (HeadResult.status 200)).cacheSets =
      [(MakeCacheKey ["s3", preset, u.full],
        "http://" ++ bucket ++ ".s3.amazonaws.com/" ++ preset ++ u.path)] ∧
    (fsServe root u preset lookup true).cacheSets =
      [(MakeCacheKey ["fs", preset, u.full], EncodeFilename root preset u.full)] := by
  refine ⟨rfl, rfl, ?_, ?_⟩ <;> simp [awsServe, fsServe, hs3, hfs]

/-- C6 witness: the amended cache-advancement behavior at a concrete
input. -/
theorem C6_materialize_never_upserts_cache_witness :
    noCache (MakeCacheKey ["s3", testPreset, testURL.full]) = none ∧
    noCache (MakeCacheKey ["fs", testPreset, testURL.full]) = none ∧
    ((awsStoreTransformedContent [BranchOutcome.storeFail ("nope")]).cacheUpserts = [] ∧
     (fsStoreTransformedContent [FsBranchOutcome.ok]).cacheUpserts = [] ∧
     (awsServe testBucket testURL testPreset noCache (HeadResult.status 200)).cacheSets =
       [(MakeCacheKey ["s3", testPreset, testURL.full],
         "http://" ++ testBucket ++ ".s3.amazonaws.com/" ++ testPreset ++ testURL.path)] ∧
     (fsServe testRoot testURL testPreset noCache true).cacheSets =
       [(MakeCacheKey ["fs", testPreset, testURL.full],
         EncodeFilename testRoot testPreset testURL.full)]) :=
  ⟨rfl, rfl,
    C6_materialize_never_upserts_cache [BranchOutcome.storeFail ("nope")]
      [FsBranchOutcome.ok] testBucket testRoot testURL testPreset noCache rfl rfl⟩

/-- C7 counterexample: on the fs read path with a cache miss and a
successful existence probe (stat hit), the handler does populate the
cache and serve the file, but — lacking a `return` — it also spawns the
background materialization and writes a second (302) response, refuting
"no background materialization is triggered and no second response is
written". -/
theorem C7_fs_probe_hit_triggers_materialize :
    (fsServe testRoot testURL testPreset noCache true).materializeTriggered = true ∧
    (fsServe testRoot testURL testPreset noCache true).writes =
      [ServeWrite.serveFile (EncodeFilename testRoot testPreset testURL.full),
       ServeWrite.redirect testURL.full 302] :=
  ⟨rfl, rfl⟩

/-- C7 amended: on a cache miss with a successful probe, the S3 handler
asynchronously populates the cache, writes a single 301 to the
confirmed derivative address and terminates without triggering
materialization; the fs handler synchronously populates the cache and
serves the file directly (no 301), then — due to the missing `return` —
additionally spawns the background materialization and performs a
second (302) response write. -/
theorem C7_probe_success_paths (bucket root : String) (u : GoURL) (preset : String)
    (lookup : String → Option String)
    (hs3 : lookup (MakeCacheKey ["s3", preset, u.full]) = none)
    (hfs : lookup (MakeCacheKey ["fs", preset, u.full]) = none) :
    awsServe bucket u preset lookup (HeadResult.status 200) =
      { writes := [ServeWrite.redirect
          ("http://" ++ bucket ++ ".s3.amazonaws.com/" ++ preset ++ u.path) 301]
        cacheSets := [(MakeCacheKey ["s3", preset, u.full],
          "http://" ++ bucket ++ ".s3.amazonaws.com/" ++ preset ++ u.path)]
        materializeTriggered := false } ∧
    fsServe root u preset lookup true =
      { writes := [ServeWrite.serveFile (EncodeFilename root preset u.full),
          ServeWrite.redirect u.full 302]
        cacheSets := [(MakeCacheKey ["fs", preset, u.full],
          EncodeFilename root preset u.full)]
        materializeTriggered := true } := by
  constructor <;> simp [awsServe, fsServe, hs3, hfs]

/-- C7 witness: the amended probe-success behavior at a concrete
input. -/
theorem C7_probe_success_paths_witness :
    noCache (MakeCacheKey ["s3", testPreset, testURL.full]) = none ∧
    noCache (MakeCacheKey ["fs", testPreset, testURL.full]) = none ∧
    (awsServe testBucket testURL testPreset noCache (HeadResult.status 200) =
      { writes := [ServeWrite.redirect
          ("http://" ++ testBucket ++ ".s3.amazonaws.com/" ++ testPreset ++ testURL.path) 301]
        cacheSets := [(MakeCacheKey ["s3", testPreset, testURL.full],
          "http://" ++ testBucket ++ ".s3.amazonaws.com/" ++ testPreset ++ testURL.path)]
        materializeTriggered := false } ∧
     fsServe testRoot testURL testPreset noCache true =
      { writes := [ServeWrite.serveFile (EncodeFilename testRoot testPreset testURL.full),
          ServeWrite.redirect testURL.full 302]
        cacheSets := [(MakeCacheKey ["fs", testPreset, testURL.full],
          EncodeFilename testRoot testPreset testURL.full)]
        materializeTriggered := true }) :=
  ⟨rfl, rfl,
    C7_probe_success_paths testBucket testRoot testURL testPreset noCache rfl rfl⟩

/-- C8: for every admitted guarded PUT (`HandleStore`) or DELETE
(`HandleDelete`), whatever the branch outcomes (success or failure),
the deferred `UnmarkProcessing` runs on the way out, so the URL's
in-flight mark is absent from the guard state after the handler
returns — no entry is leaked. -/
theorem C8_guard_released_on_all_paths (hash : String → Nat) (g : Guardian)
    (u : GoURL) (outcomes : List BranchOutcome)
    (branches : List (String × Option String)) :
    Guardian.inFlight hash (HandleStore hash g u outcomes).2 u = false ∧
    Guardian.inFlight hash (HandleDelete hash g u branches).2.1 u = false := by
  constructor
  · show Guardian.inFlight hash
      (UnmarkProcessing hash (MarkProcessing hash g u).2 u) u = false
    exact inFlight_unmark hash (MarkProcessing hash g u).2 u
  · show Guardian.inFlight hash
      (UnmarkProcessing hash (MarkProcessing hash g u).2 u) u = false
    exact inFlight_unmark hash (MarkProcessing hash g u).2 u

/-- C9 counterexample: the reaper is not periodic, request-independent
background work — `go f.CleanStorageRoot()` is spawned at the start of
every `StoreTransformedContent` call, and such a call is itself spawned
by the read path on a probe miss, so a plain GET request transitively
triggers the sweep. -/
theorem C9_sweep_runs_per_materialize_call :
    (fsServe testRoot testURL testPreset noCache false).materializeTriggered = true ∧
    (fsStoreTransformedContent []).cleanTriggered = true ∧
    (fsStoreTransformedContent [FsBranchOutcome.ok]).cleanTriggered = true :=
  ⟨rfl, rfl, rfl⟩

/-- C9 amended: when invoked, the reaper removes nothing if the TTL is
non-positive; otherwise it walks the whole root and attempts removal of
exactly the entries whose age exceeds the TTL (skipping entries the
walk reports an error for), never aborting the walk — individual
remove failures are ignored (the `removeFails` flag does not influence
the result).  The sweep is not periodic: it is spawned as a detached
goroutine at the start of every `StoreTransformedContent` call. -/
theorem C9_reaper_behavior (ttl : Int) (entries : List FileEntry)
    (fsOutcomes : List FsBranchOutcome) :
    CleanStorageRoot ttl entries =
      (if ttl ≤ 0 then []
       else (entries.filter
          (fun e => !e.walkErr && decide (ttl < e.age))).map (fun e => e.path),
       true) ∧
    (fsStoreTransformedContent fsOutcomes).cleanTriggered = true := by
  refine ⟨?_, rfl⟩
  by_cases h : ttl ≤ 0
  · simp [CleanStorageRoot, h]
  · simp [CleanStorageRoot, h, walkClean_eq]

/-- C10: in `Dispatcher.HandleFetch`, for any syntactically present
(non-empty) url parameter: with an empty whitelist the request is
always forwarded to the backend (the 403 branch is unreachable); with a
non-empty whitelist the request is forwarded exactly when some pattern
matches and receives 403 (never reaching the backend) otherwise. -/
theorem C10_whitelist_gate (wl : List (String → Bool)) (raw : String)
    (h : raw ≠ "") :
    HandleFetch wl raw =
      (if wl.isEmpty || wl.any (fun pat => pat raw) then FetchResult.forwarded
       else FetchResult.notAllowed403) := by
  unfold HandleFetch
  rw [if_neg h]
  cases hE : wl.isEmpty <;> cases hA : wl.any (fun pat => pat raw) <;>
    simp [hE, hA]

/-- C10 witness: with an empty whitelist a concrete non-empty url is
forwarded. -/
theorem C10_whitelist_gate_witness :
    testURL.full ≠ "" ∧
    HandleFetch [] testURL.full =
      (if ([] : List (String → Bool)).isEmpty ||
          ([] : List (String → Bool)).any (fun pat => pat testURL.full)
       then FetchResult.forwarded else FetchResult.notAllowed403) :=
  ⟨by decide, C10_whitelist_gate [] testURL.full (by decide)⟩

end Sharaq
